import Mathlib

/-!
Verification of the AzVault backend (Rust, Tauri) against its
natural-language specification.  The Rust sources under
src-tauri/src/{auth,azure,commands}/mod.rs are shallowly embedded below:
pure helpers become Lean functions, the stateful auth manager becomes
explicit state passing over a ManagerState record, and network / keyring
effects are modelled by passing the observed responses (and recording the
number of calls performed) explicitly.
-/

namespace AzVault

/-! ## String helpers -/

/-- Boolean suffix test on strings, modelling Rust str::ends_with. -/
def strEndsWith (s suffix : String) : Bool :=
  decide (suffix.data.length ≤ s.data.length) &&
  decide (s.data.drop (s.data.length - suffix.data.length) = suffix.data)

/-- The segment of a character list after the last occurrence of sep
(the whole list when sep does not occur). -/
def afterLast (sep : Char) (l : List Char) : List Char :=
  l.foldl (fun acc c => if c = sep then [] else acc ++ [c]) []

/-- Splits a character list at the first colon: returns the part before
and the part after, or none when there is no colon. -/
def takeUntilColon : List Char → Option (List Char × List Char)
  | [] => none
  | c :: cs =>
    if c = ':' then some ([], cs)
    else
      match takeUntilColon cs with
      | none => none
      | some (a, b) => some (c :: a, b)

/-! ## URL model

The Rust code parses URLs with the url crate (WHATWG URL standard) and
only ever inspects the scheme and the host.  We embed the fragment of
that parser these inspections depend on: a scheme made of an ASCII
letter followed by letters/digits/plus/minus/dot and terminated by a
colon; for the https scheme, an authority introduced by (any number of)
slashes, terminated by a slash, backslash, question mark or hash, with
an optional userinfo part before the last at sign and an optional port
after a colon; scheme and host are lowercased; an https URL with an
empty host fails to parse.  Percent-encoding and IDNA are not modelled
(none of the claims exercise them). -/

/-- Characters permitted in a URL scheme after the first (url crate). -/
def isSchemeChar (c : Char) : Bool :=
  c.isAlphanum || c = '+' || c = '-' || c = '.'

/-- A valid URL scheme: an ASCII letter followed by scheme characters. -/
def validScheme : List Char → Bool
  | [] => false
  | c :: cs => c.isAlpha && cs.all isSchemeChar

/-- Characters that terminate the authority component. -/
def isAuthorityEnd (c : Char) : Bool :=
  c = '/' || c = '?' || c = '#' || c = '\\'

/-- Result of URL parsing: the (lowercased) scheme, and the
(lowercased) host when the URL has one. -/
structure UrlParts where
  scheme : String
  host : Option String
deriving Repr, DecidableEq

/-- Model of url::Url::parse restricted to the scheme/host observations
made by the code.  Non-https schemes parse with no host recorded (the
code never looks at their host). -/
def parseUrl (s : String) : Option UrlParts :=
  match takeUntilColon s.data with
  | none => none
  | some (sch, rest) =>
    if validScheme sch then
      let schemeL := String.mk (sch.map Char.toLower)
      if schemeL = "https" then
        let rest2 := rest.dropWhile (fun c => c = '/' || c = '\\')
        let auth := rest2.takeWhile (fun c => !(isAuthorityEnd c))
        let hostport := afterLast '@' auth
        let host := hostport.takeWhile (fun c => !(c = ':'))
        if host.isEmpty then none
        else some ⟨schemeL, some (String.mk (host.map Char.toLower))⟩
      else
        some ⟨schemeL, none⟩
    else none

/-! ## Allowlist gate (azure/mod.rs, is_allowed_azure_url) -/

/-- The host allowlist condition from is_allowed_azure_url. -/
def allowedHost (host : String) : Bool :=
  decide (host = "management.azure.com")
    || strEndsWith host ".vault.azure.net"
    || strEndsWith host ".vault.usgovcloudapi.net"
    || strEndsWith host ".vault.azure.cn"

/-- AzureClient::is_allowed_azure_url: parse, require https, require an
allowlisted host. -/
def is_allowed_azure_url (url : String) : Bool :=
  match parseUrl url with
  | none => false
  | some p =>
    if p.scheme ≠ "https" then false
    else
      match p.host with
      | none => false
      | some host => allowedHost host

/-! ## Token model (auth/mod.rs)

TokenResponse is constructed in auth/mod.rs with fields access_token,
refresh_token (optional), expires_in (u64 seconds) and token_type; the
TokenCache holds one entry per audience plus per-audience absolute
expiry instants; PersistedSession is the keyring blob.  The keyring and
the network are modelled by explicit state passing: ManagerState carries
the cache, the tenant preference and the currently persisted session. -/

structure TokenResponse where
  access_token : String
  refresh_token : Option String
  expires_in : Nat
  token_type : String
deriving Repr, DecidableEq

structure TokenCache where
  management_token : Option TokenResponse
  vault_token : Option TokenResponse
  management_expires_at : Option Nat
  vault_expires_at : Option Nat
deriving Repr, DecidableEq

/-- TokenCache::new: the empty cache. -/
def TokenCache.new : TokenCache := ⟨none, none, none, none⟩

structure PersistedSession where
  tenant_id : String
  refresh_token : String
deriving Repr, DecidableEq

/-- The whole mutable state owned by AuthManager: the tenant preference,
the token cache, and the keyring slot holding the persisted session. -/
structure ManagerState where
  tenant_id : String
  cache : TokenCache
  session : Option PersistedSession
deriving Repr, DecidableEq

/-- A JSON body returned by the OAuth token endpoint, restricted to the
fields the code reads. -/
structure TokenBody where
  error : Option String
  error_description : Option String
  access_token : Option String
  refresh_token : Option String
  expires_in : Option Nat
  token_type : Option String
deriving Repr, DecidableEq

/-- The TokenResponse the code builds from a successful token-endpoint
body (poll_device_code and refresh_token build it identically). -/
def tokenOfBody (body : TokenBody) : TokenResponse :=
  { access_token := body.access_token.getD ""
    refresh_token := body.refresh_token
    expires_in := body.expires_in.getD 3600
    token_type := body.token_type.getD "Bearer" }

/-- AuthManager::new: loads the persisted session; seeds the tenant
preference and (when a session exists) a management cache entry with an
empty access token, the persisted refresh token, and expiry 0. -/
def initState (persisted : Option PersistedSession) : ManagerState :=
  match persisted with
  | some p =>
    { tenant_id := p.tenant_id
      cache :=
        { TokenCache.new with
            management_token := some ⟨"", some p.refresh_token, 0, "Bearer"⟩
            management_expires_at := some 0 }
      session := persisted }
  | none => ⟨"organizations", TokenCache.new, none⟩

/-- AuthManager::set_tenant: stores the new tenant id, resets the cache,
and either carries the management refresh token forward (re-persisting
the session under the new tenant and re-seeding the cache entry) or
clears the persisted session. -/
def set_tenant (s : ManagerState) (tenant_id : String) : ManagerState :=
  let refresh := s.cache.management_token.bind (fun t => t.refresh_token)
  match refresh with
  | some refresh_token =>
    { tenant_id := tenant_id
      cache :=
        { TokenCache.new with
            management_token := some ⟨"", some refresh_token, 0, "Bearer"⟩ }
      session := some ⟨tenant_id, refresh_token⟩ }
  | none => ⟨tenant_id, TokenCache.new, none⟩

/-- AuthManager::sign_out: resets the cache and deletes the session. -/
def sign_out (s : ManagerState) : ManagerState :=
  ⟨s.tenant_id, TokenCache.new, none⟩

/-- AuthManager::poll_device_code, given the tenant and cache state, the
current time and the parsed response body of the one poll it performs.
Returns the call result together with the updated state. -/
def poll_device_code (s : ManagerState) (now : Nat) (body : TokenBody) :
    Except String TokenResponse × ManagerState :=
  match body.error with
  | some e =>
    if e = "authorization_pending" then (Except.error "authorization_pending", s)
    else if e = "slow_down" then (Except.error "slow_down", s)
    else
      (Except.error
        ("Auth error: " ++ e ++ " - " ++ body.error_description.getD "unknown"), s)
  | none =>
    let token := tokenOfBody body
    let cache' :=
      { s.cache with
          management_expires_at := some (now + token.expires_in)
          management_token := some token }
    let session' :=
      match token.refresh_token with
      | some rt => some (⟨s.tenant_id, rt⟩ : PersistedSession)
      | none => s.session
    (Except.ok token, ⟨s.tenant_id, cache', session'⟩)

/-- AuthManager::refresh_token, given the state, whether the mint is for
the management audience, the current time and the parsed response body
of the refresh-grant call. -/
def refresh_update (s : ManagerState) (is_management : Bool) (now : Nat)
    (body : TokenBody) : Except String String × ManagerState :=
  match body.error with
  | some _ =>
    (Except.error
      ("Token refresh failed: " ++ body.error_description.getD "unknown"), s)
  | none =>
    let token := tokenOfBody body
    if is_management then
      let cache' :=
        { s.cache with
            management_expires_at := some (now + token.expires_in)
            management_token := some token }
      let session' :=
        match token.refresh_token with
        | some rt => some (⟨s.tenant_id, rt⟩ : PersistedSession)
        | none => s.session
      (Except.ok token.access_token, ⟨s.tenant_id, cache', session'⟩)
    else
      let cache' :=
        { s.cache with
            vault_expires_at := some (now + token.expires_in)
            vault_token := some token }
      (Except.ok token.access_token, ⟨s.tenant_id, cache', s.session⟩)

/-! ## getToken (auth/mod.rs, get_management_token / get_vault_token) -/

/-- The cache-serving test shared by both audiences: the cached access
token is returned when it is non-empty and now < expires_at - 60
(saturating subtraction, as in Rust u64::saturating_sub). -/
def cached_token_check (token : Option TokenResponse) (expires_at : Option Nat)
    (now : Nat) : Option String :=
  match token, expires_at with
  | some t, some e =>
    if t.access_token ≠ "" ∧ now < e - 60 then some t.access_token else none
  | _, _ => none

/-- Outcome of a getToken request: the returned result plus how many
refresh-grant network calls and how many CLI invocations were made. -/
structure TokenOutcome where
  result : Except String String
  refresh_calls : Nat
  cli_calls : Nat
deriving Repr

/-- The generic terminal failure both getToken paths return. -/
def genericAuthError : String :=
  "Not authenticated. Please sign in (or run az login)."

/-- The CLI fallback step: return the CLI token on success, otherwise
the single generic not-authenticated error (the CLI failure string is
discarded). -/
def cli_fallback (cliResult : Except String String) : Except String String :=
  match cliResult with
  | Except.ok t => Except.ok t
  | Except.error _ => Except.error genericAuthError

/-- The common body of get_management_token / get_vault_token: serve the
requested audience's cache entry if valid; else, when the management
cache entry carries a refresh token, attempt a refresh-grant (outcome
given by refreshFn); else, or when the refresh fails, attempt the CLI
fallback; else fail with the generic error. -/
def get_token (audToken : Option TokenResponse) (audExpires : Option Nat)
    (mgmtRefresh : Option String) (now : Nat)
    (refreshFn : String → Except String String)
    (cliResult : Except String String) : TokenOutcome :=
  match cached_token_check audToken audExpires now with
  | some tok => ⟨Except.ok tok, 0, 0⟩
  | none =>
    match mgmtRefresh with
    | some r =>
      match refreshFn r with
      | Except.ok t => ⟨Except.ok t, 1, 0⟩
      | Except.error _ => ⟨cli_fallback cliResult, 1, 1⟩
    | none => ⟨cli_fallback cliResult, 0, 1⟩

/-- AuthManager::get_management_token over the cache state. -/
def get_management_token (cache : TokenCache) (now : Nat)
    (refreshFn : String → Except String String)
    (cliResult : Except String String) : TokenOutcome :=
  get_token cache.management_token cache.management_expires_at
    (cache.management_token.bind (fun t => t.refresh_token)) now refreshFn cliResult

/-- AuthManager::get_vault_token over the cache state: the audience
cache entry is the vault one, but the refresh token is read from the
management entry. -/
def get_vault_token (cache : TokenCache) (now : Nat)
    (refreshFn : String → Except String String)
    (cliResult : Except String String) : TokenOutcome :=
  get_token cache.vault_token cache.vault_expires_at
    (cache.management_token.bind (fun t => t.refresh_token)) now refreshFn cliResult

/-! ## State-machine events (for the persisted-session invariant) -/

/-- The operations that may mutate the ManagerState, each carrying the
external input (time, parsed response body, new tenant) it runs with. -/
inductive Event where
  | pollDevice (now : Nat) (body : TokenBody)
  | refreshMgmt (now : Nat) (body : TokenBody)
  | refreshVault (now : Nat) (body : TokenBody)
  | tenantSwitch (t : String)
  | signOutEv
deriving Repr, DecidableEq

/-- State effect of one event. -/
def applyEvent (s : ManagerState) : Event → ManagerState
  | Event.pollDevice now body => (poll_device_code s now body).2
  | Event.refreshMgmt now body => (refresh_update s true now body).2
  | Event.refreshVault now body => (refresh_update s false now body).2
  | Event.tenantSwitch t => set_tenant s t
  | Event.signOutEv => sign_out s

/-- A run of the manager: the state after a sequence of events. -/
def runEvents (s : ManagerState) (es : List Event) : ManagerState :=
  es.foldl applyEvent s

/-- The persisted-session invariant claimed by the spec: a stored
session always carries a non-empty refresh token. -/
def sessionRefreshNonEmpty (s : ManagerState) : Prop :=
  ∀ p, s.session = some p → p.refresh_token ≠ ""

/-- Auxiliary cache invariant needed to push the session invariant
through a tenant switch: a refresh token held in the management cache
entry is non-empty. -/
def cacheRefreshNonEmpty (s : ManagerState) : Prop :=
  ∀ t r, s.cache.management_token = some t → t.refresh_token = some r → r ≠ ""

/-- A token-endpoint body never delivers an empty-string refresh token
(the provider-side well-formedness the code relies on but does not
check). -/
def TokenBody.wf (b : TokenBody) : Prop :=
  ∀ r, b.refresh_token = some r → r ≠ ""

/-- Well-formedness of an event: its response body, when it has one, is
well-formed. -/
def Event.wf : Event → Prop
  | Event.pollDevice _ body => body.wf
  | Event.refreshMgmt _ body => body.wf
  | Event.refreshVault _ body => body.wf
  | Event.tenantSwitch _ => True
  | Event.signOutEv => True

/-! ## Tenant sanitization as the spec words it (claim C2)

Modelled from the spec, for comparison with the source: the spec says a
stored tenant preference contains only hex digits and hyphens, or is
the literal default sentinel "organizations". -/

/-- A hex digit or hyphen. -/
def isHexOrHyphen (c : Char) : Bool :=
  c.isDigit || ('a' ≤ c && c ≤ 'f') || ('A' ≤ c && c ≤ 'F') || c = '-'

/-- Spec-side predicate: the tenant value is sanitized. -/
def tenantSanitized (t : String) : Bool :=
  decide (t = "organizations") || t.data.all isHexOrHyphen

/-! ## Retry executor (azure/mod.rs, request_json)

The network is modelled by the list of outcomes the successive send
attempts would observe: either a transport-level failure or a response
with a status code, an optional parsed Retry-After header value, and a
body.  The body is restricted to the error fields parse_error reads. -/

/-- A JSON response body, restricted to the error fields read by
AzureClient::parse_error (error.code, error.message,
error_description). -/
structure JsonBody where
  error_code : Option String
  error_message : Option String
  error_description : Option String
deriving Repr, DecidableEq

/-- AzureClient::parse_error: formats the terminal error message from
the response body and status, with a remediation hint for common
statuses. -/
def parse_error (body : JsonBody) (status : Nat) : String :=
  let code := body.error_code.getD "UnknownError"
  let message :=
    (body.error_message.orElse (fun _ => body.error_description)).getD
      "An unknown error occurred"
  let hint : Option String :=
    match status with
    | 401 => some "Your session may have expired. Try signing in again."
    | 403 => some "You don't have permission. Check your Azure RBAC role or access policy."
    | 404 => some "The resource was not found. It may have been deleted."
    | 429 => some "Too many requests. The app applied retry with backoff."
    | _ => none
  let base := "[" ++ toString status ++ "] " ++ code ++ ": " ++ message
  match hint with
  | some h => base ++ " | Hint: " ++ h
  | none => base

/-- What one send attempt observes. -/
inductive AttemptOutcome where
  | transportErr (msg : String)
  | response (status : Nat) (retryAfter : Option Nat) (body : JsonBody)
deriving Repr, DecidableEq

/-- reqwest StatusCode::is_success: 200..=299. -/
def isSuccessStatus (s : Nat) : Bool := 200 ≤ s && s ≤ 299

/-- reqwest StatusCode::is_server_error: 500..=599. -/
def isServerError (s : Nat) : Bool := 500 ≤ s && s ≤ 599

/-- MAX_RETRIES from azure/mod.rs. -/
def MAX_RETRIES : Nat := 3

/-- Result of running the retry loop: the returned value (none only
when the modelled outcome trace is shorter than the attempts the loop
would make), the seconds slept between attempts, and the number of send
attempts performed. -/
structure RequestTrace where
  result : Option (Except String JsonBody)
  waits : List Nat
  attempts : Nat
deriving Repr

/-- The retry loop of AzureClient::request_json, starting at the given
attempt counter: success statuses return the body; 429/5xx sleeps
Retry-After seconds (else min(2^attempt, 8)) and retries while attempt
< MAX_RETRIES, else returns parse_error of the response; transport
failures sleep min(2^attempt, 8) and retry under the same ceiling, else
return the network error. -/
def request_loop : List AttemptOutcome → Nat → RequestTrace
  | [], _ => ⟨none, [], 0⟩
  | AttemptOutcome.response st ra body :: rest, attempt =>
    if isSuccessStatus st then ⟨some (Except.ok body), [], 1⟩
    else if (decide (st = 429) || isServerError st) && decide (attempt < MAX_RETRIES) then
      let w := ra.getD (min (2 ^ attempt) 8)
      let r := request_loop rest (attempt + 1)
      ⟨r.result, w :: r.waits, r.attempts + 1⟩
    else ⟨some (Except.error (parse_error body st)), [], 1⟩
  | AttemptOutcome.transportErr msg :: rest, attempt =>
    if attempt < MAX_RETRIES then
      let w := min (2 ^ attempt) 8
      let r := request_loop rest (attempt + 1)
      ⟨r.result, w :: r.waits, r.attempts + 1⟩
    else ⟨some (Except.error ("Network error: " ++ msg)), [], 1⟩

/-- AzureClient::request_json: the allowlist gate runs before any
network I/O; a blocked URL is a terminal error with zero attempts.
method, token and payload only shape the outgoing request, never the
control flow, and are carried here to state exactly that. -/
def request_json (method url token : String) (payload : Option JsonBody)
    (outcomes : List AttemptOutcome) : RequestTrace :=
  if is_allowed_azure_url url then request_loop outcomes 0
  else
    ⟨some (Except.error "Blocked outbound request to non-Azure endpoint."),
      [], 0⟩

/-! ## Paginator (azure/mod.rs, list_secrets / list_keys / list_certificates)

Each successful response page carries an optional value array of raw
items and an optional nextLink.  The loop requests the current URL,
appends the parse of every item of the value array in order, and
continues while a nextLink is present. -/

/-- One successful response page, with raw items of type β. -/
structure Page (β : Type) where
  value : Option (List β)
  nextLink : Option String
deriving Repr, DecidableEq

/-- The pagination loop shared by list_secrets, list_keys and
list_certificates, with the per-item parser abstracted: returns the
flattened items and the number of requests issued, or none when the
supplied page trace ends while a nextLink is still present. -/
def list_items_loop {β α : Type} (parse : β → α) :
    List (Page β) → Option (List α × Nat)
  | [] => none
  | p :: rest =>
    let items := (p.value.getD []).map parse
    match p.nextLink with
    | none => some (items, 1)
    | some _ =>
      match list_items_loop parse rest with
      | none => none
      | some (more, n) => some (items ++ more, n + 1)

/-! ## Command-side validation (commands/mod.rs) -/

/-- UTF-8 byte width of one character (Rust str::len counts bytes). -/
def charUtf8Size (c : Char) : Nat :=
  if c.toNat < 0x80 then 1
  else if c.toNat < 0x800 then 2
  else if c.toNat < 0x10000 then 3
  else 4

/-- UTF-8 byte length of a string, modelling Rust str::len. -/
def utf8Len (s : String) : Nat :=
  s.data.foldl (fun n c => n + charUtf8Size c) 0

/-- validate_vault_uri: HTTPS and a vault-domain host suffix.  (Unlike
the request-layer gate, the bare management host is not accepted
here.) -/
def validate_vault_uri (vault_uri : String) : Except String Unit :=
  match parseUrl vault_uri with
  | none => Except.error "Invalid vault URI."
  | some p =>
    if p.scheme ≠ "https" then Except.error "Vault URI must use HTTPS."
    else
      match p.host with
      | none => Except.error "Vault URI must include a host."
      | some host =>
        if strEndsWith host ".vault.azure.net"
            || strEndsWith host ".vault.usgovcloudapi.net"
            || strEndsWith host ".vault.azure.cn" then Except.ok ()
        else Except.error "Vault URI must target an Azure Key Vault endpoint."

/-- The character class accepted by validate_item_name: Rust
char::is_ascii_alphanumeric or a hyphen. -/
def isNameChar (c : Char) : Bool := c.isAlphanum || c = '-'

/-- validate_item_name from commands/mod.rs: 1 to 127 bytes, only
ASCII alphanumerics and hyphens. -/
def validate_item_name (name : String) : Except String Unit :=
  if decide (utf8Len name = 0) || decide (utf8Len name > 127) then
    Except.error "Item name must be between 1 and 127 characters."
  else if !(name.data.all isNameChar) then
    Except.error "Item name may only contain letters, numbers, and hyphens."
  else Except.ok ()

/-- The shared shape of the six vault item commands (get_secret_value,
get_secret_metadata, set_secret, delete_secret, recover_secret,
purge_secret): validate the vault URI, then the item name, then acquire
a vault token, then issue the network call.  The pair of counters
records how many token acquisitions and network calls were performed.
(set_secret interposes a value-size check after the name validation,
which does not affect anything stated here.) -/
def vault_item_command {α : Type} (vault_uri name : String)
    (tokenResult : Except String String)
    (network : String → Except String α) :
    Except String α × Nat × Nat :=
  match validate_vault_uri vault_uri with
  | Except.error e => (Except.error e, 0, 0)
  | Except.ok _ =>
    match validate_item_name name with
    | Except.error e => (Except.error e, 0, 0)
    | Except.ok _ =>
      match tokenResult with
      | Except.error e => (Except.error e, 1, 0)
      | Except.ok tok => (network tok, 1, 1)

/-! ## Theorems -/

/-- Claim C1: the allowlist gate accepts a URL exactly when it parses,
its scheme is https and its host is exactly management.azure.com or
ends with one of the three fixed vault-domain suffixes; the lookalike
host vault.azure.net.attacker.test is rejected. -/
theorem C1_allowlist_gate :
    (∀ url : String,
      is_allowed_azure_url url = true ↔
        ∃ p : UrlParts, parseUrl url = some p ∧ p.scheme = "https" ∧
          ∃ h : String, p.host = some h ∧
            (h = "management.azure.com" ∨
              strEndsWith h ".vault.azure.net" = true ∨
              strEndsWith h ".vault.usgovcloudapi.net" = true ∨
              strEndsWith h ".vault.azure.cn" = true)) ∧
    is_allowed_azure_url "https://vault.azure.net.attacker.test/secrets" = false := by
  constructor
  · intro url
    simp only [is_allowed_azure_url, allowedHost]
    cases hp : parseUrl url with
    | none => simp
    | some p =>
      by_cases hs : p.scheme = "https"
      · cases hh : p.host with
        | none => simp [hs, hh]
        | some host =>
          simp [hs, hh, Bool.or_eq_true, decide_eq_true_iff]
          tauto
      · simp [hs]
  · decide

/-- Claim C1, instantiated: a data-plane vault URL is accepted by the
gate via the first conjunct of the main theorem. -/
theorem C1_allowlist_gate_witness :
    is_allowed_azure_url "https://my-vault.vault.azure.net/secrets/test" = true :=
  (C1_allowlist_gate.1 "https://my-vault.vault.azure.net/secrets/test").mpr
    ⟨⟨"https", some "my-vault.vault.azure.net"⟩, by decide, rfl, "my-vault.vault.azure.net",
      rfl, Or.inr (Or.inl (by decide))⟩

/-- Claim C2, refuted at a concrete input: set_tenant performs no
sanitization, so the stored tenant preference after setting the value
consisting of fifty a characters followed by the shell-metacharacter
payload is neither hex-and-hyphen-only nor the sentinel. -/
theorem C2_counterexample :
    tenantSanitized ((set_tenant (initState none)
        "aaaaaaaaaaaaaaaaaaaaaaaaaaaaaaaaaaaaaaaaaaaaaaaaaa;rm -rf /").tenant_id)
      = false := by
  decide

/-- Claim C2 as amended: set_tenant stores the new tenant value
verbatim; no character of the input is removed or replaced. -/
theorem C2_amended_verbatim_store (s : ManagerState) (t : String) :
    (set_tenant s t).tenant_id = t := by
  rcases h : s.cache.management_token.bind (fun tk => tk.refresh_token) with _ | r <;>
    simp [set_tenant, h]

/-- Claim C2 amended, instantiated at a concrete state and input. -/
theorem C2_amended_verbatim_store_witness :
    (set_tenant (initState none) "72f988bf-86f1-41af-91ab-2d7cd011db47").tenant_id
      = "72f988bf-86f1-41af-91ab-2d7cd011db47" :=
  C2_amended_verbatim_store (initState none) "72f988bf-86f1-41af-91ab-2d7cd011db47"

/-- Helper: the cache-serving test at a present entry, as an if. -/
theorem cached_token_check_some (t : TokenResponse) (e now : Nat) :
    cached_token_check (some t) (some e) now
      = if t.access_token ≠ "" ∧ now < e - 60 then some t.access_token else none := rfl

/-- Helper: a valid cache entry short-circuits getToken with no
refresh and no CLI call. -/
theorem get_token_hit (a : Option TokenResponse) (b : Option Nat)
    (mr : Option String) (now : Nat) (rf : String → Except String String)
    (cli : Except String String) (tok : String)
    (h : cached_token_check a b now = some tok) :
    get_token a b mr now rf cli = ⟨Except.ok tok, 0, 0⟩ := by
  unfold get_token
  rw [h]

/-- Helper: on a cache miss, getToken proceeds to the refresh and CLI
paths. -/
theorem get_token_miss (a : Option TokenResponse) (b : Option Nat)
    (mr : Option String) (now : Nat) (rf : String → Except String String)
    (cli : Except String String)
    (h : cached_token_check a b now = none) :
    get_token a b mr now rf cli
      = match mr with
        | some r =>
          match rf r with
          | Except.ok t => ⟨Except.ok t, 1, 0⟩
          | Except.error _ => ⟨cli_fallback cli, 1, 1⟩
        | none => ⟨cli_fallback cli, 0, 1⟩ := by
  unfold get_token
  rw [h]

/-- Claim C3: the cached access token is returned with zero
refresh/CLI calls only when now < expires_at - 60 (saturating); a cache
entry expiring in 30 seconds is not served and some mint path is
attempted instead; a non-empty entry expiring in 120 seconds is served
from cache with zero refresh and zero CLI calls. -/
theorem C3_cache_safety_margin (t : TokenResponse) (now : Nat)
    (mr : Option String) (rf : String → Except String String)
    (cli : Except String String) :
    (∀ e : Nat,
      (get_token (some t) (some e) mr now rf cli).refresh_calls = 0 →
      (get_token (some t) (some e) mr now rf cli).cli_calls = 0 →
      (get_token (some t) (some e) mr now rf cli).result = Except.ok t.access_token →
      now < e - 60) ∧
    cached_token_check (some t) (some (now + 30)) now = none ∧
    1 ≤ (get_token (some t) (some (now + 30)) mr now rf cli).refresh_calls
        + (get_token (some t) (some (now + 30)) mr now rf cli).cli_calls ∧
    (t.access_token ≠ "" →
      get_token (some t) (some (now + 120)) mr now rf cli
        = ⟨Except.ok t.access_token, 0, 0⟩) := by
  have h30 : cached_token_check (some t) (some (now + 30)) now = none := by
    rw [cached_token_check_some, if_neg]
    rintro ⟨-, hlt⟩
    omega
  refine ⟨?_, h30, ?_, ?_⟩
  · intro e h1 h2 h3
    by_cases hc : t.access_token ≠ "" ∧ now < e - 60
    · exact hc.2
    · have hnone : cached_token_check (some t) (some e) now = none := by
        rw [cached_token_check_some, if_neg hc]
      rw [get_token_miss _ _ _ _ _ _ hnone] at h1 h2
      rcases mr with _ | r
      · simp at h2
      · rcases hr : rf r with v | msg <;> simp [hr] at h1
  · rw [get_token_miss _ _ _ _ _ _ h30]
    rcases mr with _ | r
    · simp
    · rcases hr : rf r with v | msg <;> simp [hr]
  · intro hne
    have hc : t.access_token ≠ "" ∧ now < now + 120 - 60 := ⟨hne, by omega⟩
    exact get_token_hit _ _ _ _ _ _ _ (by rw [cached_token_check_some, if_pos hc])

/-- Claim C3, instantiated: a token expiring 120 seconds from now is
served from cache; one expiring 30 seconds from now is not. -/
theorem C3_cache_safety_margin_witness :
    get_token (some ⟨"tok", none, 0, "Bearer"⟩) (some 1120) none 1000
        (fun _ => Except.error "no net") (Except.error "no cli")
      = ⟨Except.ok "tok", 0, 0⟩ ∧
    cached_token_check (some ⟨"tok", none, 0, "Bearer"⟩) (some 1030) 1000 = none :=
  ⟨(C3_cache_safety_margin ⟨"tok", none, 0, "Bearer"⟩ 1000 none
      (fun _ => Except.error "no net") (Except.error "no cli")).2.2.2 (by decide),
   (C3_cache_safety_margin ⟨"tok", none, 0, "Bearer"⟩ 1000 none
      (fun _ => Except.error "no net") (Except.error "no cli")).2.1⟩

/-- Claim C4 helper: a 429 or 5xx status is never a success status. -/
theorem transient_not_success (st : Nat)
    (h : (decide (st = 429) || isServerError st) = true) :
    isSuccessStatus st = false := by
  simp only [Bool.or_eq_true, decide_eq_true_eq, isServerError, Bool.and_eq_true] at h
  simp only [isSuccessStatus, Bool.and_eq_false_iff, decide_eq_false_iff_not]
  omega

/-- Claim C4 helper: a transient response below the retry ceiling sleeps
Retry-After seconds when present, else min(2^attempt, 8), and retries. -/
theorem request_loop_response_retry (st : Nat) (ra : Option Nat) (body : JsonBody)
    (rest : List AttemptOutcome) (attempt : Nat)
    (htr : (decide (st = 429) || isServerError st) = true)
    (hat : attempt < MAX_RETRIES) :
    request_loop (AttemptOutcome.response st ra body :: rest) attempt
      = ⟨(request_loop rest (attempt + 1)).result,
         ra.getD (min (2 ^ attempt) 8) :: (request_loop rest (attempt + 1)).waits,
         (request_loop rest (attempt + 1)).attempts + 1⟩ := by
  simp [request_loop, transient_not_success st htr, htr, hat]

/-- Claim C4 helper: a transient response at the retry ceiling returns
the terminal error built from that response. -/
theorem request_loop_response_exhausted (st : Nat) (ra : Option Nat) (body : JsonBody)
    (rest : List AttemptOutcome)
    (htr : (decide (st = 429) || isServerError st) = true) :
    request_loop (AttemptOutcome.response st ra body :: rest) MAX_RETRIES
      = ⟨some (Except.error (parse_error body st)), [], 1⟩ := by
  simp [request_loop, transient_not_success st htr, MAX_RETRIES]

/-- Claim C4 helper: a transport failure below the retry ceiling sleeps
min(2^attempt, 8) and retries. -/
theorem request_loop_transport_retry (msg : String) (rest : List AttemptOutcome)
    (attempt : Nat) (hat : attempt < MAX_RETRIES) :
    request_loop (AttemptOutcome.transportErr msg :: rest) attempt
      = ⟨(request_loop rest (attempt + 1)).result,
         min (2 ^ attempt) 8 :: (request_loop rest (attempt + 1)).waits,
         (request_loop rest (attempt + 1)).attempts + 1⟩ := by
  simp [request_loop, hat]

/-- Claim C4 helper: a transport failure at the retry ceiling returns
the terminal network error. -/
theorem request_loop_transport_exhausted (msg : String) (rest : List AttemptOutcome) :
    request_loop (AttemptOutcome.transportErr msg :: rest) MAX_RETRIES
      = ⟨some (Except.error ("Network error: " ++ msg)), [], 1⟩ := by
  simp [request_loop, MAX_RETRIES]

/-- Claim C4: transient statuses (429/5xx) retry up to MAX_RETRIES = 3
additional attempts waiting Retry-After seconds when present and
min(2^attempt, 8) otherwise; transport failures retry on the
min(2^attempt, 8) schedule; a run of four transient responses makes 4
attempts, waits Retry-After-or-1, then -or-2, then -or-4 seconds, and
returns the terminal error built from the last response; a run of four
transport failures waits 1, 2, 4 and returns the last network error;
and for an allowlisted URL request_json is exactly this loop started at
attempt 0. -/
theorem C4_retry_backoff_schedule :
    (∀ (st : Nat) (ra : Option Nat) (body : JsonBody) (rest : List AttemptOutcome)
        (attempt : Nat),
      (decide (st = 429) || isServerError st) = true → attempt < MAX_RETRIES →
      request_loop (AttemptOutcome.response st ra body :: rest) attempt
        = ⟨(request_loop rest (attempt + 1)).result,
           ra.getD (min (2 ^ attempt) 8) :: (request_loop rest (attempt + 1)).waits,
           (request_loop rest (attempt + 1)).attempts + 1⟩) ∧
    (∀ (msg : String) (rest : List AttemptOutcome) (attempt : Nat),
      attempt < MAX_RETRIES →
      request_loop (AttemptOutcome.transportErr msg :: rest) attempt
        = ⟨(request_loop rest (attempt + 1)).result,
           min (2 ^ attempt) 8 :: (request_loop rest (attempt + 1)).waits,
           (request_loop rest (attempt + 1)).attempts + 1⟩) ∧
    (∀ (s0 s1 s2 s3 : Nat) (ra0 ra1 ra2 ra3 : Option Nat)
        (b0 b1 b2 b3 : JsonBody),
      (decide (s0 = 429) || isServerError s0) = true →
      (decide (s1 = 429) || isServerError s1) = true →
      (decide (s2 = 429) || isServerError s2) = true →
      (decide (s3 = 429) || isServerError s3) = true →
      request_loop
          [AttemptOutcome.response s0 ra0 b0, AttemptOutcome.response s1 ra1 b1,
           AttemptOutcome.response s2 ra2 b2, AttemptOutcome.response s3 ra3 b3] 0
        = ⟨some (Except.error (parse_error b3 s3)),
           [ra0.getD 1, ra1.getD 2, ra2.getD 4], 4⟩) ∧
    (∀ m0 m1 m2 m3 : String,
      request_loop
          [AttemptOutcome.transportErr m0, AttemptOutcome.transportErr m1,
           AttemptOutcome.transportErr m2, AttemptOutcome.transportErr m3] 0
        = ⟨some (Except.error ("Network error: " ++ m3)), [1, 2, 4], 4⟩) ∧
    (∀ (method url token : String) (payload : Option JsonBody)
        (outcomes : List AttemptOutcome),
      is_allowed_azure_url url = true →
      request_json method url token payload outcomes = request_loop outcomes 0) := by
  refine ⟨request_loop_response_retry, request_loop_transport_retry, ?_, ?_, ?_⟩
  · intro s0 s1 s2 s3 ra0 ra1 ra2 ra3 b0 b1 b2 b3 h0 h1 h2 h3
    rw [request_loop_response_retry s0 ra0 b0 _ 0 h0 (by decide),
      request_loop_response_retry s1 ra1 b1 _ 1 h1 (by decide),
      request_loop_response_retry s2 ra2 b2 _ 2 h2 (by decide)]
    have h4 : request_loop [AttemptOutcome.response s3 ra3 b3] 3
        = ⟨some (Except.error (parse_error b3 s3)), [], 1⟩ :=
      request_loop_response_exhausted s3 ra3 b3 [] h3
    rw [h4]
    norm_num
  · intro m0 m1 m2 m3
    rw [request_loop_transport_retry m0 _ 0 (by decide),
      request_loop_transport_retry m1 _ 1 (by decide),
      request_loop_transport_retry m2 _ 2 (by decide)]
    have h4 : request_loop [AttemptOutcome.transportErr m3] 3
        = ⟨some (Except.error ("Network error: " ++ m3)), [], 1⟩ :=
      request_loop_transport_exhausted m3 []
    rw [h4]
    norm_num
  · intro method url token payload outcomes h
    simp [request_json, h]

/-- Claim C4, instantiated: a 429 carrying Retry-After 5 makes the next
wait 5 seconds (not the exponential default), the subsequent hintless
503s wait 2 then 4, and the run ends with the terminal error of the
last 503. -/
theorem C4_retry_backoff_schedule_witness :
    request_loop
        [AttemptOutcome.response 429 (some 5) ⟨none, none, none⟩,
         AttemptOutcome.response 503 none ⟨none, none, none⟩,
         AttemptOutcome.response 503 none ⟨none, none, none⟩,
         AttemptOutcome.response 503 none ⟨some "ServerBusy", some "try later", none⟩] 0
      = ⟨some (Except.error (parse_error ⟨some "ServerBusy", some "try later", none⟩ 503)),
         [5, 2, 4], 4⟩ :=
  C4_retry_backoff_schedule.2.2.1 429 503 503 503 (some 5) none none none
    ⟨none, none, none⟩ ⟨none, none, none⟩ ⟨none, none, none⟩
    ⟨some "ServerBusy", some "try later", none⟩
    (by decide) (by decide) (by decide) (by decide)

/-- Claim C5: a URL rejected by the allowlist gate makes request_json
return the terminal Blocked error with zero attempts and zero waits,
for every method, token, payload and network behaviour. -/
theorem C5_blocked_is_terminal (method url token : String) (payload : Option JsonBody)
    (outcomes : List AttemptOutcome)
    (h : is_allowed_azure_url url = false) :
    request_json method url token payload outcomes
      = ⟨some (Except.error "Blocked outbound request to non-Azure endpoint."), [], 0⟩ := by
  simp [request_json, h]

/-- Claim C5, instantiated: a non-HTTPS URL is blocked with zero
attempts even though the network would have answered 200. -/
theorem C5_blocked_is_terminal_witness :
    request_json "GET" "http://management.azure.com/subscriptions" "tok" none
        [AttemptOutcome.response 200 none ⟨none, none, none⟩]
      = ⟨some (Except.error "Blocked outbound request to non-Azure endpoint."), [], 0⟩ :=
  C5_blocked_is_terminal "GET" "http://management.azure.com/subscriptions" "tok" none
    [AttemptOutcome.response 200 none ⟨none, none, none⟩] (by decide)

/-- Claim C6: getToken evaluates the mint paths in fixed priority
order — valid cache first (no calls), then a refresh grant whenever the
management cache entry carries a refresh token (for either audience),
then the CLI fallback — and when every path fails the returned error is
the single generic not-authenticated message, whatever the individual
failure messages were. -/
theorem C6_mint_priority_order (cache : TokenCache) (now : Nat)
    (rf : String → Except String String) (cli : Except String String) :
    get_vault_token cache now rf cli
      = get_token cache.vault_token cache.vault_expires_at
          (cache.management_token.bind (fun tk => tk.refresh_token)) now rf cli ∧
    get_management_token cache now rf cli
      = get_token cache.management_token cache.management_expires_at
          (cache.management_token.bind (fun tk => tk.refresh_token)) now rf cli ∧
    ∀ (a : Option TokenResponse) (b : Option Nat) (mr : Option String),
      (∀ tok, cached_token_check a b now = some tok →
        get_token a b mr now rf cli = ⟨Except.ok tok, 0, 0⟩) ∧
      (cached_token_check a b now = none →
        (∀ r t, mr = some r → rf r = Except.ok t →
          get_token a b mr now rf cli = ⟨Except.ok t, 1, 0⟩) ∧
        (∀ r msg t, mr = some r → rf r = Except.error msg → cli = Except.ok t →
          get_token a b mr now rf cli = ⟨Except.ok t, 1, 1⟩) ∧
        (∀ t, mr = none → cli = Except.ok t →
          get_token a b mr now rf cli = ⟨Except.ok t, 0, 1⟩) ∧
        (∀ cliMsg, cli = Except.error cliMsg →
          (mr = none →
            get_token a b mr now rf cli = ⟨Except.error genericAuthError, 0, 1⟩) ∧
          (∀ r msg, mr = some r → rf r = Except.error msg →
            get_token a b mr now rf cli = ⟨Except.error genericAuthError, 1, 1⟩))) := by
  refine ⟨rfl, rfl, ?_⟩
  intro a b mr
  constructor
  · intro tok h
    exact get_token_hit _ _ _ _ _ _ _ h
  · intro hnone
    refine ⟨?_, ?_, ?_, ?_⟩
    · intro r t hmr hrf
      subst hmr
      rw [get_token_miss _ _ _ _ _ _ hnone]
      simp [hrf]
    · intro r msg t hmr hrf hcli
      subst hmr
      rw [get_token_miss _ _ _ _ _ _ hnone]
      simp [hrf, hcli, cli_fallback]
    · intro t hmr hcli
      subst hmr
      rw [get_token_miss _ _ _ _ _ _ hnone]
      simp [hcli, cli_fallback]
    · intro cliMsg hcli
      constructor
      · intro hmr
        subst hmr
        rw [get_token_miss _ _ _ _ _ _ hnone]
        simp [hcli, cli_fallback]
      · intro r msg hmr hrf
        subst hmr
        rw [get_token_miss _ _ _ _ _ _ hnone]
        simp [hrf, hcli, cli_fallback]

/-- Claim C6, instantiated: with an empty vault cache, a refresh token
on the management entry, a failing refresh and a failing CLI, the vault
request returns exactly the generic not-authenticated message. -/
theorem C6_mint_priority_order_witness :
    get_token none none (some "rt") 0
        (fun _ => Except.error "refresh endpoint down")
        (Except.error "az not installed")
      = ⟨Except.error genericAuthError, 1, 1⟩ :=
  (((C6_mint_priority_order TokenCache.new 0
        (fun _ => Except.error "refresh endpoint down")
        (Except.error "az not installed")).2.2 none none
      (some "rt")).2 rfl).2.2.2 "az not installed" rfl |>.2 "rt"
    "refresh endpoint down" rfl rfl

/-- Claim C7: the paginator issues exactly one request per page,
accumulates each page's array items in server order without
deduplication or reordering, and stops exactly at the first page with
no continuation URL — pages supplied beyond it are never requested. -/
theorem C7_paginator_flattening {β α : Type} (parse : β → α) (ps : List (Page β))
    (q : Page β) (extra : List (Page β))
    (hps : ∀ p ∈ ps, p.nextLink.isSome = true) (hq : q.nextLink = none) :
    list_items_loop parse (ps ++ q :: extra)
      = some ((ps ++ [q]).flatMap (fun p => (p.value.getD []).map parse),
              ps.length + 1) := by
  induction ps with
  | nil => simp [list_items_loop, hq]
  | cons p ps ih =>
    have hlink : p.nextLink.isSome = true := hps p (by simp)
    obtain ⟨l, hl⟩ := Option.isSome_iff_exists.mp hlink
    have ih2 := ih (fun x hx => hps x (by simp [hx]))
    simp [list_items_loop, hl, ih2]

/-- Claim C7, instantiated: three pages (two with a nextLink, one
without) yield the five items flattened in order with exactly three
requests, and a fourth supplied page is never consumed. -/
theorem C7_paginator_flattening_witness :
    list_items_loop (fun n : Nat => n)
        [⟨some [1, 2], some "https://v.vault.azure.net/secrets?page=2"⟩,
         ⟨some [3], some "https://v.vault.azure.net/secrets?page=3"⟩,
         ⟨some [4, 5], none⟩,
         ⟨some [99], none⟩]
      = some ([1, 2, 3, 4, 5], 3) :=
  C7_paginator_flattening (fun n : Nat => n)
    [⟨some [1, 2], some "https://v.vault.azure.net/secrets?page=2"⟩,
     ⟨some [3], some "https://v.vault.azure.net/secrets?page=3"⟩]
    ⟨some [4, 5], none⟩ [⟨some [99], none⟩] (by decide) rfl

/-- Claim C8 helper: a fatal poll error message never coincides with
either of the two bare poll-again signal codes. -/
theorem auth_error_ne_poll_signals (e d : String) :
    ("Auth error: " ++ e ++ " - " ++ d) ≠ "authorization_pending" ∧
    ("Auth error: " ++ e ++ " - " ++ d) ≠ "slow_down" := by
  constructor <;>
  · intro h
    have h2 := String.data_eq_of_eq h
    simp only [String.data_append] at h2
    have h3 := congrArg List.head? h2
    simp at h3

/-- Claim C8: pollDeviceCode passes through exactly the provider codes
authorization_pending and slow_down as bare poll-again signals leaving
the state untouched; every other provider error yields the fatal
Auth-error message (never equal to either signal); on success it stores
the returned token in the management cache, sets the expiry to
now + expires_in, keeps the tenant, and persists the session with the
returned refresh token when one is present. -/
theorem C8_poll_device_code_classification (s : ManagerState) (now : Nat)
    (body : TokenBody) :
    (body.error = some "authorization_pending" →
      poll_device_code s now body = (Except.error "authorization_pending", s)) ∧
    (body.error = some "slow_down" →
      poll_device_code s now body = (Except.error "slow_down", s)) ∧
    (∀ e, body.error = some e → e ≠ "authorization_pending" → e ≠ "slow_down" →
      poll_device_code s now body
        = (Except.error
            ("Auth error: " ++ e ++ " - " ++ body.error_description.getD "unknown"), s) ∧
      ("Auth error: " ++ e ++ " - " ++ body.error_description.getD "unknown")
        ≠ "authorization_pending" ∧
      ("Auth error: " ++ e ++ " - " ++ body.error_description.getD "unknown")
        ≠ "slow_down") ∧
    (body.error = none →
      (poll_device_code s now body).1
        = Except.ok ⟨body.access_token.getD "", body.refresh_token,
            body.expires_in.getD 3600, body.token_type.getD "Bearer"⟩ ∧
      (poll_device_code s now body).2.cache.management_token
        = some ⟨body.access_token.getD "", body.refresh_token,
            body.expires_in.getD 3600, body.token_type.getD "Bearer"⟩ ∧
      (poll_device_code s now body).2.cache.management_expires_at
        = some (now + body.expires_in.getD 3600) ∧
      (poll_device_code s now body).2.tenant_id = s.tenant_id ∧
      (∀ rt, body.refresh_token = some rt →
        (poll_device_code s now body).2.session = some ⟨s.tenant_id, rt⟩) ∧
      (body.refresh_token = none →
        (poll_device_code s now body).2.session = s.session)) := by
  refine ⟨?_, ?_, ?_, ?_⟩
  · intro he
    simp [poll_device_code, he]
  · intro he
    simp [poll_device_code, he]
  · intro e he h1 h2
    refine ⟨by simp [poll_device_code, he, h1, h2], auth_error_ne_poll_signals e _⟩
  · intro he
    refine ⟨by simp [poll_device_code, he, tokenOfBody],
      by simp [poll_device_code, he, tokenOfBody],
      by simp [poll_device_code, he, tokenOfBody], ?_, ?_, ?_⟩
    · rcases hrt : body.refresh_token with _ | rt <;>
        simp [poll_device_code, he, tokenOfBody, hrt]
    · intro rt hrt
      simp [poll_device_code, he, tokenOfBody, hrt]
    · intro hrt
      simp [poll_device_code, he, tokenOfBody, hrt]

/-- Claim C8, instantiated: authorization_pending is passed through as
a poll-again signal; expired_token is the fatal wrapped error; a
success response seeds the cache and persists the session. -/
theorem C8_poll_device_code_classification_witness :
    poll_device_code (initState none) 100
        ⟨some "authorization_pending", none, none, none, none, none⟩
      = (Except.error "authorization_pending", initState none) ∧
    poll_device_code (initState none) 100
        ⟨some "expired_token", some "code expired", none, none, none, none⟩
      = (Except.error "Auth error: expired_token - code expired", initState none) ∧
    (poll_device_code (initState none) 100
        ⟨none, none, some "at", some "rt", some 3600, some "Bearer"⟩).2.session
      = some ⟨"organizations", "rt"⟩ ∧
    (poll_device_code (initState none) 100
        ⟨none, none, some "at", some "rt", some 3600, some "Bearer"⟩).2.cache.management_expires_at
      = some 3700 := by
  refine ⟨(C8_poll_device_code_classification (initState none) 100 _).1 rfl, ?_, ?_, ?_⟩
  · have h := ((C8_poll_device_code_classification (initState none) 100
        ⟨some "expired_token", some "code expired", none, none, none, none⟩).2.2.1
      "expired_token" rfl (by decide) (by decide)).1
    rw [h]
    rfl
  · exact ((C8_poll_device_code_classification (initState none) 100
      ⟨none, none, some "at", some "rt", some 3600, some "Bearer"⟩).2.2.2 rfl).2.2.2.2.1
      "rt" rfl
  · exact ((C8_poll_device_code_classification (initState none) 100
      ⟨none, none, some "at", some "rt", some 3600, some "Bearer"⟩).2.2.2 rfl).2.2.1

/-- Claim C9, refuted at a concrete reachable state: the code persists
whatever refresh token string the token endpoint returns, so a
device-code success response carrying an empty-string refresh_token
leads to a persisted session whose refresh_token is empty. -/
theorem C9_counterexample :
    (runEvents (initState none)
        [Event.pollDevice 0 ⟨none, none, some "tok", some "", some 3600, some "Bearer"⟩]).session
      = some ⟨"organizations", ""⟩ ∧
    ¬ sessionRefreshNonEmpty (runEvents (initState none)
        [Event.pollDevice 0 ⟨none, none, some "tok", some "", some 3600, some "Bearer"⟩]) := by
  refine ⟨rfl, fun hinv => ?_⟩
  exact hinv ⟨"organizations", ""⟩ rfl rfl

/-- Claim C9 helper: every state-mutating operation preserves both the
session invariant and the management-cache refresh-token invariant,
provided the operation's response body (when it has one) does not carry
an empty-string refresh token. -/
theorem session_inv_step (s : ManagerState) (e : Event)
    (hs : sessionRefreshNonEmpty s) (hc : cacheRefreshNonEmpty s) (he : e.wf) :
    sessionRefreshNonEmpty (applyEvent s e) ∧ cacheRefreshNonEmpty (applyEvent s e) := by
  cases e with
  | pollDevice now body =>
    rcases hb : body.error with _ | err
    · rcases hrt : body.refresh_token with _ | rt
      · constructor
        · intro p hp
          exact hs p
            (by simpa [applyEvent, poll_device_code, hb, hrt, tokenOfBody] using hp)
        · intro t r ht hr
          have ht2 : tokenOfBody body = t := by
            simpa [applyEvent, poll_device_code, hb] using ht
          subst ht2
          simp [tokenOfBody, hrt] at hr
      · constructor
        · intro p hp
          have hp2 : (⟨s.tenant_id, rt⟩ : PersistedSession) = p := by
            simpa [applyEvent, poll_device_code, hb, hrt, tokenOfBody] using hp
          subst hp2
          exact he rt hrt
        · intro t r ht hr
          have ht2 : tokenOfBody body = t := by
            simpa [applyEvent, poll_device_code, hb] using ht
          subst ht2
          simp only [tokenOfBody, hrt, Option.some.injEq] at hr
          subst hr
          exact he rt hrt
    · have hsame : applyEvent s (Event.pollDevice now body) = s := by
        simp only [applyEvent, poll_device_code, hb]
        split_ifs <;> rfl
      rw [hsame]
      exact ⟨hs, hc⟩
  | refreshMgmt now body =>
    rcases hb : body.error with _ | err
    · rcases hrt : body.refresh_token with _ | rt
      · constructor
        · intro p hp
          exact hs p
            (by simpa [applyEvent, refresh_update, hb, hrt, tokenOfBody] using hp)
        · intro t r ht hr
          have ht2 : tokenOfBody body = t := by
            simpa [applyEvent, refresh_update, hb] using ht
          subst ht2
          simp [tokenOfBody, hrt] at hr
      · constructor
        · intro p hp
          have hp2 : (⟨s.tenant_id, rt⟩ : PersistedSession) = p := by
            simpa [applyEvent, refresh_update, hb, hrt, tokenOfBody] using hp
          subst hp2
          exact he rt hrt
        · intro t r ht hr
          have ht2 : tokenOfBody body = t := by
            simpa [applyEvent, refresh_update, hb] using ht
          subst ht2
          simp only [tokenOfBody, hrt, Option.some.injEq] at hr
          subst hr
          exact he rt hrt
    · constructor
      · intro p hp
        exact hs p (by simpa [applyEvent, refresh_update, hb] using hp)
      · intro t r ht hr
        exact hc t r (by simpa [applyEvent, refresh_update, hb] using ht) hr
  | refreshVault now body =>
    rcases hb : body.error with _ | err
    · constructor
      · intro p hp
        exact hs p (by simpa [applyEvent, refresh_update, hb] using hp)
      · intro t r ht hr
        exact hc t r (by simpa [applyEvent, refresh_update, hb] using ht) hr
    · constructor
      · intro p hp
        exact hs p (by simpa [applyEvent, refresh_update, hb] using hp)
      · intro t r ht hr
        exact hc t r (by simpa [applyEvent, refresh_update, hb] using ht) hr
  | tenantSwitch tnew =>
    rcases hbind : s.cache.management_token.bind (fun tk => tk.refresh_token) with _ | r
    · constructor
      · intro p hp
        simp [applyEvent, set_tenant, hbind] at hp
      · intro t r2 ht hr
        simp [applyEvent, set_tenant, hbind, TokenCache.new] at ht
    · obtain ⟨tk, htk, hrtk⟩ := Option.bind_eq_some.mp hbind
      have hrne : r ≠ "" := hc tk r htk hrtk
      constructor
      · intro p hp
        have hp2 : (⟨tnew, r⟩ : PersistedSession) = p := by
          simpa [applyEvent, set_tenant, hbind] using hp
        subst hp2
        exact hrne
      · intro t r2 ht hr
        have ht2 : (⟨"", some r, 0, "Bearer"⟩ : TokenResponse) = t := by
          simpa [applyEvent, set_tenant, hbind, TokenCache.new] using ht
        subst ht2
        simp only [Option.some.injEq] at hr
        subst hr
        exact hrne
  | signOutEv =>
    constructor
    · intro p hp
      simp [applyEvent, sign_out] at hp
    · intro t r ht hr
      simp [applyEvent, sign_out, TokenCache.new] at ht

/-- Claim C9 as amended: the persisted-session invariant (refresh_token
non-empty whenever a session exists) holds in every reachable state
provided the initially loaded session and every token-endpoint response
carry only non-empty refresh tokens; the code itself never checks this,
so the guarantee is conditional on the provider (see the
counterexample). -/
theorem C9_amended_session_invariant (persisted : Option PersistedSession)
    (hp : ∀ p, persisted = some p → p.refresh_token ≠ "")
    (es : List Event) (hes : ∀ e ∈ es, e.wf) :
    sessionRefreshNonEmpty (runEvents (initState persisted) es) := by
  have hinit : sessionRefreshNonEmpty (initState persisted) ∧
      cacheRefreshNonEmpty (initState persisted) := by
    rcases persisted with _ | p
    · constructor
      · intro q hq
        simp [initState] at hq
      · intro t r ht hr
        simp [initState, TokenCache.new] at ht
    · constructor
      · intro q hq
        have hq2 : p = q := by simpa [initState] using hq
        subst hq2
        exact hp p rfl
      · intro t r ht hr
        have ht2 : (⟨"", some p.refresh_token, 0, "Bearer"⟩ : TokenResponse) = t := by
          simpa [initState, TokenCache.new] using ht
        subst ht2
        simp only [Option.some.injEq] at hr
        subst hr
        exact hp p rfl
  have main : ∀ (l : List Event) (s : ManagerState),
      sessionRefreshNonEmpty s → cacheRefreshNonEmpty s → (∀ e ∈ l, e.wf) →
      sessionRefreshNonEmpty (runEvents s l) ∧ cacheRefreshNonEmpty (runEvents s l) := by
    intro l
    induction l with
    | nil =>
      intro s h1 h2 _
      exact ⟨h1, h2⟩
    | cons e l ih =>
      intro s h1 h2 hwf
      have hstep := session_inv_step s e h1 h2 (hwf e (by simp))
      have hrec := ih (applyEvent s e) hstep.1 hstep.2 (fun x hx => hwf x (by simp [hx]))
      simpa [runEvents] using hrec
  exact (main es (initState persisted) hinit.1 hinit.2 hes).1

/-- Claim C9 amended, instantiated on a run that restores a session,
rotates the refresh token via a device-code success, and switches
tenant carrying the token forward. -/
theorem C9_amended_session_invariant_witness :
    sessionRefreshNonEmpty (runEvents (initState (some ⟨"tenant-1", "rt-1"⟩))
      [Event.pollDevice 50 ⟨none, none, some "at-1", some "rt-2", some 3600, some "Bearer"⟩,
       Event.tenantSwitch "72f988bf",
       Event.refreshVault 60 ⟨none, none, some "at-2", none, some 3600, some "Bearer"⟩]) :=
  C9_amended_session_invariant (some ⟨"tenant-1", "rt-1"⟩)
    (by
      intro p hp2
      cases hp2
      decide)
    [Event.pollDevice 50 ⟨none, none, some "at-1", some "rt-2", some 3600, some "Bearer"⟩,
     Event.tenantSwitch "72f988bf",
     Event.refreshVault 60 ⟨none, none, some "at-2", none, some 3600, some "Bearer"⟩]
    (by
      intro e he
      fin_cases he <;> simp [Event.wf, TokenBody.wf])

/-- Claim C10 helper: an accepted name character is a one-byte UTF-8
character. -/
theorem charUtf8Size_eq_one (c : Char) (h : isNameChar c = true) :
    charUtf8Size c = 1 := by
  have hlt : c.toNat < 128 := by
    simp only [isNameChar, Char.isAlphanum, Char.isAlpha, Char.isUpper, Char.isLower,
      Char.isDigit, Bool.or_eq_true, Bool.and_eq_true, decide_eq_true_eq] at h
    rcases h with ((⟨h1, h2⟩ | ⟨h1, h2⟩) | ⟨h1, h2⟩) | hc
    · have := @UInt32.toNat_le_of_le c.val 90 (by decide) h2
      simp only [Char.toNat]
      omega
    · have := @UInt32.toNat_le_of_le c.val 122 (by decide) h2
      simp only [Char.toNat]
      omega
    · have := @UInt32.toNat_le_of_le c.val 57 (by decide) h2
      simp only [Char.toNat]
      omega
    · subst hc
      decide
  simp [charUtf8Size, hlt]

/-- Claim C10 helper: a list of accepted name characters has UTF-8 byte
length equal to its character count. -/
theorem utf8Len_eq_length_of_nameChars (l : List Char)
    (h : ∀ c ∈ l, isNameChar c = true) :
    ∀ n : Nat, l.foldl (fun n c => n + charUtf8Size c) n = n + l.length := by
  induction l with
  | nil =>
    intro n
    simp
  | cons c l ih =>
    intro n
    have h1 := charUtf8Size_eq_one c (h c (by simp))
    have h2 := ih (fun x hx => h x (by simp [hx])) (n + 1)
    simp only [List.foldl_cons, h1, h2, List.length_cons]
    omega

/-- Claim C10: validate_item_name accepts exactly the names of 1 to 127
ASCII alphanumeric-or-hyphen characters, and every vault item command
whose name fails this validation returns an error having performed zero
token acquisitions and zero network calls. -/
theorem C10_item_name_gate (name : String) :
    (validate_item_name name = Except.ok () ↔
      1 ≤ name.length ∧ name.length ≤ 127 ∧ ∀ c ∈ name.data, isNameChar c = true) ∧
    (∀ (α : Type) (uri : String) (tokenResult : Except String String)
        (network : String → Except String α),
      validate_item_name name ≠ Except.ok () →
      (vault_item_command uri name tokenResult network).2.1 = 0 ∧
      (vault_item_command uri name tokenResult network).2.2 = 0 ∧
      ∃ e, (vault_item_command uri name tokenResult network).1 = Except.error e) := by
  constructor
  · unfold validate_item_name
    split_ifs with h1 h2
    · constructor
      · intro h
        cases h
      · rintro ⟨hge, hle, hch⟩
        have hlen : utf8Len name = name.data.length := by
          simpa [utf8Len] using utf8Len_eq_length_of_nameChars name.data hch 0
        simp only [Bool.or_eq_true, decide_eq_true_eq] at h1
        simp only [String.length] at hge hle
        rcases h1 with h1 | h1 <;> omega
    · constructor
      · intro h
        cases h
      · rintro ⟨hge, hle, hch⟩
        have hall : name.data.all isNameChar = true := by
          simpa [List.all_eq_true] using hch
        simp [hall] at h2
    · have hall : name.data.all isNameChar = true := by
        rcases hb : name.data.all isNameChar with _ | _
        · simp [hb] at h2
        · rfl
      have hch : ∀ c ∈ name.data, isNameChar c = true := by
        simpa [List.all_eq_true] using hall
      have hlen : utf8Len name = name.data.length := by
        simpa [utf8Len] using utf8Len_eq_length_of_nameChars name.data hch 0
      simp only [Bool.or_eq_true, decide_eq_true_eq, not_or] at h1
      refine iff_of_true rfl ⟨?_, ?_, hch⟩ <;> simp only [String.length] <;> omega
  · intro α uri tokenResult network hbad
    unfold vault_item_command
    rcases hu : validate_vault_uri uri with eu | u
    · exact ⟨by simp, by simp, eu, by simp⟩
    · rcases hn : validate_item_name name with en | v
      · exact ⟨by simp, by simp, en, by simp⟩
      · cases v
        exact absurd hn hbad

/-- Claim C10, instantiated: a valid name passes the validation; a name
with a space fails it before any token or network activity even with a
valid vault URI, a usable token and a live network. -/
theorem C10_item_name_gate_witness :
    validate_item_name "valid-name-01" = Except.ok () ∧
    (vault_item_command "https://demo.vault.azure.net" "bad name" (Except.ok "tok")
        (fun _ => Except.ok (0 : Nat))).2.1 = 0 ∧
    (vault_item_command "https://demo.vault.azure.net" "bad name" (Except.ok "tok")
        (fun _ => Except.ok (0 : Nat))).2.2 = 0 := by
  have hval : validate_item_name "bad name"
      = Except.error "Item name may only contain letters, numbers, and hyphens." := by
    rfl
  have hmain := (C10_item_name_gate "bad name").2 Nat "https://demo.vault.azure.net"
    (Except.ok "tok") (fun _ => Except.ok (0 : Nat)) (by simp [hval])
  exact ⟨(C10_item_name_gate "valid-name-01").1.mpr (by decide), hmain.1, hmain.2.1⟩

end AzVault
